import Mathlib

/-!
Verification of the gradient-descent trainer demonstrated in
`src/beginner/003_PyTorch.ipynb` (the only locally defined logic of the
repository).  Tensors of the notebook are modelled as lists of rationals
(exact arithmetic stands in for machine floats); the external library calls
(elementwise arithmetic, `mean`, reverse-mode `backward`, the global random
generator) are embedded by the computation they perform on this data.
-/

namespace Torch003

/-- Elementwise mean of a tensor: `t.mean()` is the sum divided by the number
of elements. -/
def tensorMean (u : List ℚ) : ℚ := u.sum / u.length

/-- `MyLinearModel.forward`: `return x*self.a + self.b`, elementwise over the
input tensor. -/
def forward (a b : ℚ) (x : List ℚ) : List ℚ := x.map (fun xi => xi * a + b)

/-- The loss expression of the training loop,
`loss = ((thy-yhat)*(thy-yhat)).mean()`: elementwise difference, elementwise
product of the difference with itself, then mean. -/
def mseLossVal (y yhat : List ℚ) : ℚ :=
  let d := y.zipWith (fun u v => u - v) yhat
  tensorMean (d.zipWith (fun u v => u * v) d)

/-- Error kinds named by the specification. -/
inductive TrainError where
  | ShapeMismatch
  | InvalidHyperparameter
deriving DecidableEq

/-- The elementwise difference `thy - yhat` with the tensor library's
one-dimensional broadcasting: equal lengths subtract pointwise, a length-1
operand is broadcast against the other, and any other length combination
fails the shape check. -/
def broadcastDiff (y yhat : List ℚ) : Except TrainError (List ℚ) :=
  if y.length = yhat.length then
    Except.ok (y.zipWith (fun u v => u - v) yhat)
  else if y.length = 1 then
    Except.ok (yhat.map (fun v => y.headD 0 - v))
  else if yhat.length = 1 then
    Except.ok (y.map (fun u => u - yhat.headD 0))
  else Except.error TrainError.ShapeMismatch

/-- `loss(y, yhat)`, i.e. `((thy-yhat)*(thy-yhat)).mean()`: the broadcasting
elementwise difference, its elementwise product with itself, then the mean;
the shape failure of the difference propagates. -/
def lossE (y yhat : List ℚ) : Except TrainError ℚ :=
  match broadcastDiff y yhat with
  | Except.ok d => Except.ok (tensorMean (d.zipWith (fun u v => u * v) d))
  | Except.error e => Except.error e

/-- What `loss.backward()` computes on the graph
`loss = mean((y - (x*a + b)) * (y - (x*a + b)))`: reverse-mode traversal.
The mean node sends `1/n` to each square, the product node `d*d` sends
`(d_i + d_i)/n` to each difference, the subtraction node negates, and the
affine node `x*a + b` accumulates `x_i * g_i` into `a.grad` and `g_i` into
`b.grad`. -/
def backwardGrads (x y : List ℚ) (a b : ℚ) : ℚ × ℚ :=
  let n : ℚ := x.length
  let yhat := forward a b x
  let d := y.zipWith (fun u v => u - v) yhat
  let dLdd := d.map (fun di => (di + di) / n)
  let dLdyhat := dLdd.map (fun g => -g)
  (((x.zipWith (fun xi g => xi * g) dLdyhat).sum), dLdyhat.sum)

/-- The closed form stated by the specification:
`grad_a = -2/n * sum((y_i - y_hat_i) * x_i)` and
`grad_b = -2/n * sum(y_i - y_hat_i)` with `y_hat_i = a*x_i + b`. -/
def gradClosedForm (x y : List ℚ) (a b : ℚ) : ℚ × ℚ :=
  let n : ℚ := x.length
  (-2 / n * ((x.zipWith (fun xi yi => (yi - (a * xi + b)) * xi) y).sum),
   -2 / n * ((x.zipWith (fun xi yi => yi - (a * xi + b)) y).sum))

/-- The per-parameter body of the update loop,
`p.data -= lr * p.grad` followed by `p.grad.zero_()`, on a `(data, grad)`
pair. -/
def paramStep (lr : ℚ) (p : ℚ × ℚ) : ℚ × ℚ := (p.1 - lr * p.2, 0)

/-- `step(a, b, grad_a, grad_b, learning_rate)`: the `for p in
lin.parameters()` loop applied to the two parameters `a` and `b`, keeping the
updated data values. -/
def step (a b grad_a grad_b learning_rate : ℚ) : ℚ × ℚ :=
  ((paramStep learning_rate (a, grad_a)).1, (paramStep learning_rate (b, grad_b)).1)

/-- One epoch of the training loop acting on the parameter pair: `backward`
computes both gradients from the current parameters, then each parameter is
updated with `p.data -= lr * p.grad`. -/
def gdStep (x y : List ℚ) (lr : ℚ) (p : ℚ × ℚ) : ℚ × ℚ :=
  let g := backwardGrads x y p.1 p.2
  step p.1 p.2 g.1 g.2 lr

/-- The training loop `for ep in range(num_epochs)`: each epoch computes
`yhat = lin(thx)`, the loss, the gradients via `backward`, and the parameter
update; the per-epoch loss values are collected in order. -/
def train (x y : List ℚ) (lr : ℚ) : ℕ → ℚ × ℚ → (ℚ × ℚ) × List ℚ
  | 0, p => (p, [])
  | n + 1, p =>
    let l := mseLossVal y (forward p.1 p.2 x)
    let p' := gdStep x y lr p
    let r := train x y lr n p'
    (r.1, l :: r.2)

/-- The training loop with the epoch count as the integer the notebook's
`num_epochs` variable holds: `range(num_epochs)` yields `num_epochs`
iterations when the count is nonnegative and none otherwise. -/
def trainLoop (x y : List ℚ) (lr : ℚ) (num_epochs : ℤ) (p : ℚ × ℚ) :
    (ℚ × ℚ) × List ℚ :=
  train x y lr num_epochs.toNat p

/-- The state the training loop threads between iterations: the two
parameter data values and their gradient accumulators. -/
structure LoopState where
  a : ℚ
  b : ℚ
  ga : ℚ
  gb : ℚ
deriving DecidableEq

/-- One epoch of the training loop on the full state: `loss.backward()`
accumulates the freshly computed gradients into the existing `.grad`
buffers, then each parameter runs `p.data -= lr * p.grad` and
`p.grad.zero_()`. -/
def epochBody (x y : List ℚ) (lr : ℚ) (s : LoopState) : LoopState :=
  let g := backwardGrads x y s.a s.b
  let ga := s.ga + g.1
  let gb := s.gb + g.2
  { a := s.a - lr * ga, b := s.b - lr * gb, ga := 0, gb := 0 }

/-- Model of the external generator `torch.rand` drawing one scalar: a
deterministic function of the generator state (a linear congruential state
transition; the library's actual bit stream is not reproduced, only its
deterministic state-passing interface). -/
def torchRand (g : ℕ) : ℚ × ℕ :=
  let g' := (1664525 * g + 1013904223) % 4294967296
  ((g' : ℚ) / 4294967296, g')

/-- Model of `torch.random.manual_seed`: replaces the generator state with
one determined by the seed alone. -/
def manualSeed (s : ℕ) : ℕ := s % 4294967296

/-- `MyLinearModel.__init__`: calls `torch.random.manual_seed(7)` and then
draws `a` and `b` with `torch.rand`.  The constructor takes no seed
argument; the global generator state is its only implicit input, and the
state after the two draws is its side effect. -/
def MyLinearModel.init (g : ℕ) : (ℚ × ℚ) × ℕ :=
  let g0 := manualSeed 7
  let ag := torchRand g0
  let bg := torchRand ag.2
  ((ag.1, bg.1), bg.2)

/-- `WineData`: stores `x.astype(np.single)` and `y.astype(np.single)` and
asserts the two have equal lengths.  The single-precision cast performed by
the external library is an arbitrary elementwise function `cast`. -/
structure WineData where
  x : List ℚ
  y : List ℚ

/-- The failure a Python `assert` raises. -/
inductive DataError where
  | AssertionError
deriving DecidableEq

/-- `WineData.__init__`: cast both sequences elementwise, then
`assert len(self.x) == len(self.y)`; an assertion failure aborts
construction. -/
def WineData.mk? (cast : ℚ → ℚ) (x y : List ℚ) : Except DataError WineData :=
  let xs := x.map cast
  let ys := y.map cast
  if xs.length = ys.length then Except.ok ⟨xs, ys⟩
  else Except.error DataError.AssertionError

/-- `WineData.__getitem__`: `return self.x[idx], self.y[idx]` (total via a
default for out-of-range indices, which the claims never reach). -/
def WineData.getitem (d : WineData) (i : ℕ) : ℚ × ℚ :=
  (d.x.getD i 0, d.y.getD i 0)

/-- `WineData.__len__`: `return len(self.y)`. -/
def WineData.len (d : WineData) : ℕ := d.y.length

/-- The reverse-mode accumulation into `a.grad` equals `-2/c` times the sum
of residual-times-input products, for an arbitrary denominator scalar `c`. -/
theorem backward_sum_a (a b c : ℚ) (x y : List ℚ) :
    (x.zipWith (fun xi g => xi * g)
      (((y.zipWith (fun u v => u - v) (x.map (fun xi => xi * a + b))).map
          (fun di => (di + di) / c)).map (fun g => -g))).sum
      = -2 / c * (x.zipWith (fun xi yi => (yi - (a * xi + b)) * xi) y).sum := by
  induction x generalizing y with
  | nil => simp
  | cons t ts ih =>
    cases y with
    | nil => simp
    | cons u us =>
      simp only [List.map_cons, List.zipWith_cons_cons, List.sum_cons, ih]
      ring

/-- The reverse-mode accumulation into `b.grad` equals `-2/c` times the sum
of residuals, for an arbitrary denominator scalar `c`. -/
theorem backward_sum_b (a b c : ℚ) (x y : List ℚ) :
    (((y.zipWith (fun u v => u - v) (x.map (fun xi => xi * a + b))).map
        (fun di => (di + di) / c)).map (fun g => -g)).sum
      = -2 / c * (x.zipWith (fun xi yi => yi - (a * xi + b)) y).sum := by
  induction x generalizing y with
  | nil => simp
  | cons t ts ih =>
    cases y with
    | nil => simp
    | cons u us =>
      simp only [List.map_cons, List.zipWith_cons_cons, List.sum_cons, ih]
      ring

/-- C1: for every observation set with equal-length `x`, `y` and `n > 0`,
the gradients computed by `loss.backward()` on
`loss = mean((y - (a*x+b))^2)` are exactly the closed form
`grad_a = -2/n * sum((y_i - y_hat_i) * x_i)` and
`grad_b = -2/n * sum(y_i - y_hat_i)`. -/
theorem backward_matches_closed_form (x y : List ℚ) (a b : ℚ)
    (hlen : x.length = y.length) (hn : 0 < x.length) :
    backwardGrads x y a b = gradClosedForm x y a b := by
  simp only [backwardGrads, gradClosedForm, forward, Prod.mk.injEq]
  exact ⟨backward_sum_a a b (x.length : ℚ) x y, backward_sum_b a b (x.length : ℚ) x y⟩

/-- Witness for C1 at `x = [1,2]`, `y = [3,5]`, `a = 1`, `b = 0`. -/
theorem backward_matches_closed_form_witness :
    ([1, 2] : List ℚ).length = ([3, 5] : List ℚ).length ∧
      0 < ([1, 2] : List ℚ).length ∧
      backwardGrads [1, 2] [3, 5] 1 0 = gradClosedForm [1, 2] [3, 5] 1 0 :=
  ⟨rfl, by decide, backward_matches_closed_form [1, 2] [3, 5] 1 0 rfl (by decide)⟩

/-- C2: the parameter update `p.data -= lr * p.grad` applied to the two
parameters realises exactly
`(a - learning_rate * grad_a, b - learning_rate * grad_b)`; as a function of
its five arguments it reads no other state. -/
theorem step_update_rule (a b grad_a grad_b learning_rate : ℚ) :
    step a b grad_a grad_b learning_rate =
      (a - learning_rate * grad_a, b - learning_rate * grad_b) := rfl

/-- The training loop unrolled: after `n` epochs the parameters are the
`n`-fold iterate of the per-epoch update, and the collected losses are the
per-epoch loss values in epoch order. -/
theorem train_spec (x y : List ℚ) (lr : ℚ) (n : ℕ) (p : ℚ × ℚ) :
    train x y lr n p =
      ((gdStep x y lr)^[n] p,
       (List.range n).map (fun i =>
         mseLossVal y
           (forward ((gdStep x y lr)^[i] p).1 ((gdStep x y lr)^[i] p).2 x))) := by
  induction n generalizing p with
  | zero => simp [train]
  | succ m ih =>
    simp only [train, ih, List.range_succ_eq_map, List.map_cons, List.map_map,
      Function.comp_def, Nat.succ_eq_add_one, Function.iterate_succ_apply,
      Function.iterate_zero_apply]

/-- C3: `train` performs exactly `num_epochs` iterations, each applying
`forward`, `loss`, `gradient` and `step` to the parameters produced by the
previous iteration, and returns the final parameter pair together with the
ordered sequence of the `num_epochs` per-epoch loss values. -/
theorem train_epochs_and_history (x y : List ℚ) (lr : ℚ) (n : ℕ) (p : ℚ × ℚ) :
    (train x y lr n p).1 = (gdStep x y lr)^[n] p ∧
      (train x y lr n p).2.length = n ∧
      (train x y lr n p).2 = (List.range n).map (fun i =>
        mseLossVal y
          (forward ((gdStep x y lr)^[i] p).1 ((gdStep x y lr)^[i] p).2 x)) := by
  rw [train_spec]
  exact ⟨rfl, by simp, rfl⟩

/-- Elementwise product of a list with itself is the list of squares. -/
theorem zipWith_mul_self (l : List ℚ) :
    l.zipWith (fun u v => u * v) l = l.map (fun t => t * t) := by
  induction l with
  | nil => simp
  | cons t ts ih => simp [ih]

/-- Elementwise difference of a list with itself is a list of zeros. -/
theorem zipWith_sub_self (l : List ℚ) :
    l.zipWith (fun u v => u - v) l = l.map (fun _ => (0 : ℚ)) := by
  induction l with
  | nil => simp
  | cons t ts ih => simp [ih]

/-- A constant-zero map sums to zero. -/
theorem sum_map_zero (l : List ℚ) : (l.map (fun _ => (0 : ℚ))).sum = 0 := by
  induction l with
  | nil => simp
  | cons t ts ih => simp [ih]

/-- Counterexample to C4 as stated: at the unequal lengths 3 and 1 the
subtraction broadcasts the length-1 operand, so `loss` returns a value
instead of failing with `ShapeMismatch`. -/
theorem loss_broadcast_cex :
    lossE [1, 2, 3] [5] = Except.ok (29 / 3) ∧
      lossE [1, 2, 3] [5] ≠ Except.error TrainError.ShapeMismatch := by
  have hval : lossE [1, 2, 3] [5] = Except.ok (29 / 3) := by
    norm_num [lossE, broadcastDiff, tensorMean]
  constructor
  · exact hval
  · intro hcontr
    rw [hval] at hcontr
    exact Except.noConfusion hcontr

/-- C4 amended: on equal-length sequences `loss` returns the mean of the
squared differences; on unequal lengths where neither operand has length 1
(such as 3 and 4) it fails with `ShapeMismatch` and returns no value; a
length-1 operand is instead broadcast and `loss` returns a value. -/
theorem loss_shape_contract (y yhat : List ℚ) :
    (y.length = yhat.length →
      lossE y yhat = Except.ok
        (((y.zipWith (fun u v => u - v) yhat).map (fun t => t * t)).sum /
          (y.length : ℚ))) ∧
    (y.length ≠ yhat.length → y.length ≠ 1 → yhat.length ≠ 1 →
      lossE y yhat = Except.error TrainError.ShapeMismatch) ∧
    (y.length ≠ yhat.length → (y.length = 1 ∨ yhat.length = 1) →
      ∃ l : ℚ, lossE y yhat = Except.ok l) := by
  refine ⟨?_, ?_, ?_⟩
  · intro h
    have hd : (y.zipWith (fun u v => u - v) yhat).length = y.length := by
      simp [List.length_zipWith, h]
    simp [lossE, broadcastDiff, h, tensorMean, zipWith_mul_self, hd]
  · intro h h1 h2
    simp [lossE, broadcastDiff, h, h1, h2]
  · intro h hone
    have hdok : ∃ d, broadcastDiff y yhat = Except.ok d := by
      by_cases hy1 : y.length = 1
      · refine ⟨yhat.map (fun v => y.headD 0 - v), ?_⟩
        simp only [broadcastDiff]
        rw [if_neg h, if_pos hy1]
      · have hyh1 : yhat.length = 1 := hone.resolve_left hy1
        refine ⟨y.map (fun u => u - yhat.headD 0), ?_⟩
        simp only [broadcastDiff]
        rw [if_neg h, if_neg hy1, if_pos hyh1]
    obtain ⟨d, hd⟩ := hdok
    exact ⟨tensorMean (d.zipWith (fun u v => u * v) d), by simp [lossE, hd]⟩

/-- Witness for C4's amended statement: equal lengths give the mean of the
squared differences, lengths 3 and 4 fail with `ShapeMismatch`, and lengths
3 and 1 broadcast to a returned value. -/
theorem loss_shape_contract_witness :
    lossE [0, 0] [1, 1] = Except.ok
        (((([0, 0] : List ℚ).zipWith (fun u v => u - v) [1, 1]).map
            (fun t => t * t)).sum / (([0, 0] : List ℚ).length : ℚ)) ∧
      lossE [1, 2, 3] [1, 2, 3, 4] = Except.error TrainError.ShapeMismatch ∧
      (∃ l : ℚ, lossE [1, 2, 3] [5] = Except.ok l) :=
  ⟨(loss_shape_contract [0, 0] [1, 1]).1 rfl,
   (loss_shape_contract [1, 2, 3] [1, 2, 3, 4]).2.1 (by decide) (by decide)
     (by decide),
   (loss_shape_contract [1, 2, 3] [5]).2.2 (by decide) (Or.inr (by decide))⟩

/-- Counterexample to C5 as stated: with `learning_rate = -1/10` the loop
does not fail before any epoch; it executes the epoch (the loss history has
an entry) and changes the parameters. -/
theorem train_negative_lr_cex :
    (train [1] [1] (-1 / 10) 1 ((0 : ℚ), 0)).2.length = 1 ∧
      (train [1] [1] (-1 / 10) 1 ((0 : ℚ), 0)).1 ≠ ((0 : ℚ), (0 : ℚ)) := by
  constructor
  · simp [train]
  · simp [train, gdStep, step, paramStep, backwardGrads, forward, tensorMean]

/-- C5 amended: the loop validates no hyperparameter.  With
`learning_rate ≤ 0` it still executes every epoch with the learning rate
unmodified, and a negative `num_epochs` simply yields zero iterations of
`range(num_epochs)`, leaving the parameters unchanged without any error. -/
theorem train_ignores_hyperparameter_sign (x y : List ℚ) (lr : ℚ) (n : ℤ)
    (p : ℚ × ℚ) (hlr : lr ≤ 0) :
    (trainLoop x y lr n p).2.length = n.toNat ∧
      (n < 0 → trainLoop x y lr n p = (p, [])) := by
  constructor
  · rw [trainLoop, train_spec]
    simp
  · intro hn
    rw [trainLoop, Int.toNat_of_nonpos hn.le]
    simp [train]

/-- Witness for C5's amended statement at `learning_rate = -1/10` with
epoch counts `2` and `-3`. -/
theorem train_ignores_hyperparameter_sign_witness :
    ((-1 / 10 : ℚ) ≤ 0) ∧
      (trainLoop [1] [1] (-1 / 10) 2 ((0 : ℚ), 0)).2.length = (2 : ℤ).toNat ∧
      ((-3 : ℤ) < 0) ∧
      trainLoop [1] [1] (-1 / 10) (-3) ((0 : ℚ), 0) = (((0 : ℚ), (0 : ℚ)), []) :=
  ⟨by norm_num,
   (train_ignores_hyperparameter_sign [1] [1] (-1 / 10) 2 ((0 : ℚ), 0)
      (by norm_num)).1,
   by decide,
   (train_ignores_hyperparameter_sign [1] [1] (-1 / 10) (-3) ((0 : ℚ), 0)
      (by norm_num)).2 (by decide)⟩

/-- The mean of the elementwise product of a list with itself is a mean of
squares, hence nonnegative. -/
theorem mean_sq_nonneg (d : List ℚ) :
    0 ≤ tensorMean (d.zipWith (fun u v => u * v) d) := by
  rw [zipWith_mul_self, tensorMean]
  refine div_nonneg (List.sum_nonneg ?_) (by positivity)
  intro t ht
  obtain ⟨u, _, rfl⟩ := List.mem_map.mp ht
  exact mul_self_nonneg u

/-- C7: every value `loss` returns is nonnegative, and
`loss(y, y)` is exactly `0`. -/
theorem loss_nonneg_and_diag_zero :
    (∀ y yhat : List ℚ, ∀ l : ℚ, lossE y yhat = Except.ok l → 0 ≤ l) ∧
      (∀ y : List ℚ, lossE y y = Except.ok 0) := by
  constructor
  · intro y yhat l h
    cases hb : broadcastDiff y yhat with
    | ok d =>
      simp only [lossE, hb, Except.ok.injEq] at h
      exact h ▸ mean_sq_nonneg d
    | error e =>
      simp [lossE, hb] at h
  · intro y
    simp [lossE, broadcastDiff, tensorMean, zipWith_sub_self, zipWith_mul_self,
      List.map_map, Function.comp_def, sum_map_zero]

/-- Witness for C7: a concrete returned loss value is nonnegative, and the
diagonal loss at a concrete sequence is zero. -/
theorem loss_nonneg_and_diag_zero_witness :
    (0 : ℚ) ≤ 1 ∧ lossE [(2 : ℚ)] [2] = Except.ok 0 :=
  ⟨loss_nonneg_and_diag_zero.1 [0] [1] 1
      (by
        have hb : broadcastDiff [(0 : ℚ)] [1] = Except.ok [-1] := by
          norm_num [broadcastDiff]
        norm_num [lossE, hb, tensorMean]),
   loss_nonneg_and_diag_zero.2 [2]⟩

/-- C6: repeated constructions of the model return identical initial
parameter pairs whatever the ambient generator state, so for the one seed
the code uses the initial parameters are reproducible. -/
theorem init_params_reproducible :
    ∀ g₁ g₂ : ℕ, (MyLinearModel.init g₁).1 = (MyLinearModel.init g₂).1 :=
  fun _ _ => rfl

/-- C9: the constructor reseeds the global generator with the constant `7`
before drawing, so its entire result — parameters and final generator
state — is independent of the prior state, and it overwrites the global
state as a side effect (shown at the concrete prior state `0`). -/
theorem init_reseeds_and_mutates :
    (∀ g₁ g₂ : ℕ, MyLinearModel.init g₁ = MyLinearModel.init g₂) ∧
      (MyLinearModel.init 0).2 ≠ 0 :=
  ⟨fun _ _ => rfl, by decide⟩

/-- C8: starting an iteration with both gradient accumulators zero, every
later iteration also starts with them zero, and the parameter pair evolves
exactly as the pure per-epoch update — the pair `(a, b)` is the only state
carried across iterations. -/
theorem grad_accumulators_zero (x y : List ℚ) (lr : ℚ) (s : LoopState)
    (h : s.ga = 0 ∧ s.gb = 0) (k : ℕ) :
    ((epochBody x y lr)^[k] s).ga = 0 ∧ ((epochBody x y lr)^[k] s).gb = 0 ∧
      (((epochBody x y lr)^[k] s).a, ((epochBody x y lr)^[k] s).b) =
        (gdStep x y lr)^[k] (s.a, s.b) := by
  induction k with
  | zero =>
    simp only [Function.iterate_zero_apply]
    exact ⟨h.1, h.2, trivial⟩
  | succ m ih =>
    rw [Function.iterate_succ_apply', Function.iterate_succ_apply']
    obtain ⟨hga, hgb, hab⟩ := ih
    refine ⟨rfl, rfl, ?_⟩
    rw [← hab]
    simp [epochBody, gdStep, step, paramStep, hga, hgb]

/-- Witness for C8 at the all-zero state, two iterations. -/
theorem grad_accumulators_zero_witness :
    ((⟨0, 0, 0, 0⟩ : LoopState).ga = 0 ∧ (⟨0, 0, 0, 0⟩ : LoopState).gb = 0) ∧
      (((epochBody [1] [1] (1 / 2))^[2] ⟨0, 0, 0, 0⟩).ga = 0 ∧
        ((epochBody [1] [1] (1 / 2))^[2] ⟨0, 0, 0, 0⟩).gb = 0 ∧
        (((epochBody [1] [1] (1 / 2))^[2] ⟨0, 0, 0, 0⟩).a,
          ((epochBody [1] [1] (1 / 2))^[2] ⟨0, 0, 0, 0⟩).b) =
          (gdStep [1] [1] (1 / 2))^[2]
            ((⟨0, 0, 0, 0⟩ : LoopState).a, (⟨0, 0, 0, 0⟩ : LoopState).b)) :=
  ⟨⟨rfl, rfl⟩, grad_accumulators_zero [1] [1] (1 / 2) ⟨0, 0, 0, 0⟩ ⟨rfl, rfl⟩ 2⟩

/-- C10: constructing `WineData` fails with an assertion error when the two
sequences have different lengths; a successful construction has the common
length, and indexing below the length returns the pair of cast elements. -/
theorem wineData_contract (cast : ℚ → ℚ) (x y : List ℚ) :
    (x.length ≠ y.length →
      WineData.mk? cast x y = Except.error DataError.AssertionError) ∧
    (∀ d : WineData, WineData.mk? cast x y = Except.ok d →
      d.len = x.length ∧
        ∀ i : ℕ, i < d.len →
          d.getitem i = (cast (x.getD i 0), cast (y.getD i 0))) := by
  constructor
  · intro h
    simp [WineData.mk?, h]
  · intro d hd
    by_cases hc : (x.map cast).length = (y.map cast).length
    · simp only [WineData.mk?] at hd
      rw [if_pos hc, Except.ok.injEq] at hd
      subst hd
      have hxy : x.length = y.length := by simpa using hc
      constructor
      · simp [WineData.len, hxy]
      · intro i hi
        have hiy : i < y.length := by
          simpa [WineData.len] using hi
        have hix : i < x.length := hxy ▸ hiy
        simp [WineData.getitem, List.getElem?_eq_getElem hix,
          List.getElem?_eq_getElem hiy]
    · simp only [WineData.mk?] at hd
      rw [if_neg hc] at hd
      exact absurd hd (by simp)

/-- Witness for C10: mismatched lengths 3 and 1 fail the assertion; the
construction from `[1,2]` and `[3,4]` has length 2 and yields the cast pair
at index 1. -/
theorem wineData_contract_witness :
    WineData.mk? (fun q => q) [1, 2, 3] [1] =
        Except.error DataError.AssertionError ∧
      WineData.len ⟨[1, 2], [3, 4]⟩ = ([1, 2] : List ℚ).length ∧
      WineData.getitem ⟨[1, 2], [3, 4]⟩ 1 =
        ((fun q : ℚ => q) (([1, 2] : List ℚ).getD 1 0),
         (fun q : ℚ => q) (([3, 4] : List ℚ).getD 1 0)) :=
  ⟨(wineData_contract (fun q => q) [1, 2, 3] [1]).1 (by decide),
   ((wineData_contract (fun q => q) [1, 2] [3, 4]).2 ⟨[1, 2], [3, 4]⟩ rfl).1,
   ((wineData_contract (fun q => q) [1, 2] [3, 4]).2 ⟨[1, 2], [3, 4]⟩ rfl).2 1
     (by decide)⟩

end Torch003
